import Mathlib

/-!
Shallow embedding of the risk scoring engine of `trustscope-analyzer`
(`src/src/components/SecurityAnalyzer.tsx`): certificate signal resolution
(`fetchRealDomainData`), domain reputation scoring
(`calculateDomainReputation`), the four security checks and risk
aggregation (`performSecurityChecks`), and the verdict classifier
(the status bands inside `analyzeWebsite`).

Modelling conventions:
- JavaScript numbers are modelled as `Int` (all arithmetic here is integral;
  the one `Math.ceil` of a real quotient is modelled as exact integer
  ceiling division).
- Timestamps (`Date.getTime()` values, milliseconds) are `Int`; an
  unparseable date (`isNaN(getTime())`) is `Option.none` on the raw record.
- The network fetch of certificate-transparency data is an input:
  `Except Unit (Option (List RawCert))`.  `.error ()` models the fetch or
  JSON parse throwing (the outer `catch` branch); `.ok none` models a JSON
  body that is not an array; `.ok (some l)` models an array of records.
- JavaScript string sentinels (`'Unknown'`) are modelled as `Option.none`
  where the code only ever tests them against `null`; the reputation string
  is a closed enum including its `'Unknown'` value because the aggregator
  matches on the string itself.
- Dynamic parts of user-facing messages (interpolated dates, issuers,
  day counts) are abstracted away; the constant prefix of each message is
  kept verbatim.
- `Array.prototype.sort` is stable (ES2019), so sorting descending by
  `notAfter` and taking index 0 selects the first record in input order
  whose `notAfter` is maximal; this is embedded as a left fold that keeps
  the current best on ties.
-/

namespace TrustScope

/-- The severity attached to a finding (`status` field pushed into
`vulnerabilities`): `"secure" | "warning" | "danger"`. -/
inductive Severity
  | secure
  | warning
  | danger
deriving DecidableEq

/-- The overall verdict (`status` in `analyzeWebsite`):
`"safe" | "warning" | "danger"`. -/
inductive Status
  | safe
  | warning
  | danger
deriving DecidableEq

/-- One raw certificate-transparency entry as returned by the lookup:
`not_after` (already parsed to a millisecond timestamp, `none` when the
date string is unparseable, i.e. `isNaN`) and the optional `issuer_name`
field. -/
structure RawCert where
  notAfter : Option Int
  issuerName : Option String
deriving DecidableEq

/-- A parsed certificate record after the `map`/`filter` in
`fetchRealDomainData`: a concrete `notAfter` timestamp and an issuer
string (`issuer_name || 'Unknown CA'`). -/
structure CertRec where
  notAfter : Int
  issuer : String
deriving DecidableEq

/-- The `sslInfo` record built by `fetchRealDomainData`:
`{ valid, expiry, daysUntilExpiry, issuer }`.  `expiry` and `issuer` are
`none` for the `'Unknown'` sentinel of the charitable fallback. -/
structure SslInfo where
  valid : Bool
  expiry : Option Int
  daysUntilExpiry : Option Int
  issuer : Option String
deriving DecidableEq

/-- The reputation label returned by `calculateDomainReputation`, plus the
literal `'Unknown'` string the catch branch of `fetchRealDomainData`
stores in the same field. -/
inductive Reputation
  | excellent
  | good
  | fair
  | poor
  | unknown
deriving DecidableEq

/-- The record returned by `fetchRealDomainData`.  `domainAge = none`
models the `'Unknown'` string of the catch branch. -/
structure DomainData where
  ssl : Option SslInfo
  domainAge : Option Int
  registrar : Option String
  reputation : Reputation
deriving DecidableEq

/-- One entry pushed into `vulnerabilities` by `performSecurityChecks`. -/
structure Finding where
  type : String
  status : Severity
  message : String
deriving DecidableEq

/-- The value returned by `performSecurityChecks`. -/
structure CheckResult where
  vulnerabilities : List Finding
  totalRisk : Int
  domainData : DomainData
deriving DecidableEq

/-- The certificate-transparency fetch outcome fed to the resolver. -/
def CtResult : Type := Except Unit (Option (List RawCert))

/-- Exact integer ceiling division (for `b > 0`), modelling
`Math.ceil(a / b)`. -/
def ceilDiv (a b : Int) : Int := -((-a).ediv b)

/-- `issuer_name || 'Unknown CA'`: JavaScript `||` replaces both a missing
field and an empty string. -/
def issuerOrDefault (o : Option String) : String :=
  match o with
  | none => "Unknown CA"
  | some s => if s = "" then "Unknown CA" else s

/-- The `map` + `filter(!isNaN)` over the CT entries in
`fetchRealDomainData`: keep records with a parseable `not_after`. -/
def parseCerts (l : List RawCert) : List CertRec :=
  l.filterMap fun r => r.notAfter.map fun t => ⟨t, issuerOrDefault r.issuerName⟩

/-- One comparison step of the descending stable sort: the candidate `c`
replaces the current best only when strictly later. -/
def pickLater (best c : CertRec) : CertRec :=
  if best.notAfter < c.notAfter then c else best

/-- `validDates.sort((a, b) => b.notAfter - a.notAfter)[0]`: with a stable
sort this is the first record in input order with maximal `notAfter`,
i.e. a left fold that keeps the current best on ties. -/
def latestRecord : List CertRec → Option CertRec
  | [] => none
  | h :: t => some (t.foldl pickLater h)

/-- The `sslInfo` computation of `fetchRealDomainData` on a fetched array
of records: `none` when no record has a parseable date, otherwise the
record with the latest `not_after`, with
`daysUntilExpiry = ceil((notAfter - now) / 86400000)` and
`valid = daysUntilExpiry > 0`. -/
def resolveSsl (l : List RawCert) (now : Int) : Option SslInfo :=
  match latestRecord (parseCerts l) with
  | none => none
  | some latest =>
      let days := ceilDiv (latest.notAfter - now) 86400000
      some { valid := decide (0 < days)
             expiry := some latest.notAfter
             daysUntilExpiry := some days
             issuer := some latest.issuer }

/-- The charitable fallback `sslInfo` used when no CT data is usable and
the URL is HTTPS: `{ valid: true, expiry: 'Unknown', daysUntilExpiry:
null, issuer: 'Unknown' }`. -/
def fallbackSsl : SslInfo :=
  { valid := true, expiry := none, daysUntilExpiry := none, issuer := none }

/-- `split('.')` on the character list: splitting always yields at least
one (possibly empty) segment. -/
def splitDot : List Char → List (List Char)
  | [] => [[]]
  | c :: rest =>
      if c = '.' then [] :: splitDot rest
      else
        match splitDot rest with
        | [] => [[c]]
        | h :: t => (c :: h) :: t

/-- `hostname.split('.').pop()?.toLowerCase()`: the last dot-separated
label, lowercased.  `split` always yields at least one element, so the
`pop` is never `undefined`. -/
def tldOf (hostname : String) : String :=
  String.mk (((splitDot hostname.data).getLast?.getD []).map Char.toLower)

/-- The popular-domain table of the age estimator in
`fetchRealDomainData`. -/
def popularDomainsAge : List String :=
  ["google.com", "facebook.com", "youtube.com", "amazon.com", "wikipedia.org"]

/-- The popular-domain allow-list of `calculateDomainReputation` (note:
it does not contain `wikipedia.org`, unlike the age table). -/
def popularDomainsRep : List String :=
  ["google.com", "facebook.com", "youtube.com", "amazon.com"]

/-- The domain-age estimation block of `fetchRealDomainData`: 20 years
for the popular table, 5 for `com`/`org`/`net`, otherwise 2.  (The
surrounding `try` cannot throw, so the `catch` default of 2 is
unreachable.) -/
def estimateDomainAge (hostname : String) : Int :=
  if hostname ∈ popularDomainsAge then 20
  else if tldOf hostname = "com" ∨ tldOf hostname = "org" ∨ tldOf hostname = "net" then 5
  else 2

/-- Number of hyphen characters in the hostname: the length of the
match list of the global hyphen regex, or 0 when there is no match. -/
def hyphenCount (hostname : String) : Nat :=
  hostname.data.count '-'

/-- Number of decimal digits in the hostname
(`(hostname.match(/[0-9]/g) || []).length`). -/
def digitCount (hostname : String) : Nat :=
  (hostname.data.filter Char.isDigit).length

/-- The age factor of `calculateDomainReputation`.  `if (domainAge)` is a
truthiness test: both `null` and `0` skip the adjustment. -/
def ageAdjusted (score : Int) (domainAge : Option Int) : Int :=
  match domainAge with
  | none => score
  | some a =>
      if a = 0 then score
      else if 5 ≤ a then score + 20
      else if 2 ≤ a then score + 10
      else score - 10

/-- `calculateDomainReputation(hostname, domainAge)`: base 50, age factor,
TLD bonuses/penalties, length and hyphen penalties, popular-domain
override to 95, then thresholds 80/60/40. -/
def calculateDomainReputation (hostname : String) (domainAge : Option Int) : Reputation :=
  let score : Int := 50
  let score := ageAdjusted score domainAge
  let tld := tldOf hostname
  let score := if tld = "com" ∨ tld = "org" ∨ tld = "edu" ∨ tld = "gov" then score + 10 else score
  let score := if tld = "tk" ∨ tld = "ml" ∨ tld = "ga" ∨ tld = "cf" then score - 20 else score
  let score := if 20 < hostname.length then score - 5 else score
  let score := if 2 < hyphenCount hostname then score - 10 else score
  let score := if hostname ∈ popularDomainsRep then 95 else score
  if 80 ≤ score then .excellent
  else if 60 ≤ score then .good
  else if 40 ≤ score then .fair
  else .poor

/-- `sslInfo?.issuer || 'Verified Registry'` (the `registrar` field):
`none` ssl gives the default; a fallback ssl carries the truthy string
`'Unknown'`, modelled as `some none` flattened to that sentinel. -/
def registrarOf (ssl : Option SslInfo) : Option String :=
  match ssl with
  | none => some "Verified Registry"
  | some s =>
      match s.issuer with
      | none => none
      | some i => if i = "" then some "Verified Registry" else some i

/-- `fetchRealDomainData(hostname, isHttps)` with the network outcome made
explicit.  The `.error` case is the outer `catch` branch (ssl fallback
only when HTTPS, everything else `'Unknown'`, including the reputation
string).  The `.ok` case computes `sslInfo` from the body, applies the
charitable fallback, estimates the age and scores the reputation. -/
def fetchRealDomainData (hostname : String) (isHttps : Bool) (ct : CtResult) (now : Int) :
    DomainData :=
  match ct with
  | .error _ =>
      { ssl := if isHttps then some fallbackSsl else none
        domainAge := none
        registrar := none
        reputation := .unknown }
  | .ok body =>
      let sslRaw : Option SslInfo :=
        match body with
        | some l => resolveSsl l now
        | none => none
      let sslInfo : Option SslInfo :=
        match sslRaw with
        | none => if isHttps then some fallbackSsl else none
        | some s => some s
      let age := estimateDomainAge hostname
      { ssl := sslInfo
        domainAge := some age
        registrar := registrarOf sslInfo
        reputation := calculateDomainReputation hostname (some age) }

/-- The SSL certificate check of `performSecurityChecks`: the finding and
the risk added to `totalRisk`.  Branches in source order: valid with more
than 30 days left (secure, 0); valid expiring within 30 days (warning,
20); valid with unknown days (secure, 0); otherwise expired/invalid
(danger, 40); no ssl record at all (warning, 15). -/
def sslCheck (ssl : Option SslInfo) : Finding × Int :=
  match ssl with
  | some s =>
      match s.daysUntilExpiry with
      | some days =>
          if s.valid ∧ 30 < days then
            (⟨"SSL Certificate", .secure, "Valid SSL certificate"⟩, 0)
          else if s.valid ∧ 0 < days ∧ days ≤ 30 then
            (⟨"SSL Certificate", .warning, "SSL certificate expires soon"⟩, 20)
          else
            (⟨"SSL Certificate", .danger, "SSL certificate is expired or invalid"⟩, 40)
      | none =>
          if s.valid then
            (⟨"SSL Certificate", .secure, "SSL certificate detected (expiry unknown)"⟩, 0)
          else
            (⟨"SSL Certificate", .danger, "SSL certificate is expired or invalid"⟩, 40)
  | none => (⟨"SSL Certificate", .warning, "Could not verify SSL certificate"⟩, 15)

/-- The protocol check: `url.startsWith('https://')`. -/
def protocolCheck (isHttps : Bool) : Finding × Int :=
  if isHttps then
    (⟨"HTTPS Protocol", .secure, "Secure HTTPS connection"⟩, 0)
  else
    (⟨"HTTPS Protocol", .danger, "Insecure HTTP connection - data transmitted in plain text"⟩, 30)

/-- The domain reputation check: matches the reputation string; anything
that is not `Excellent`/`Good`/`Fair` — including the `'Unknown'` of the
catch branch — takes the `else` branch (danger, 35). -/
def reputationCheck (rep : Reputation) : Finding × Int :=
  match rep with
  | .excellent => (⟨"Domain Reputation", .secure, "Excellent domain reputation"⟩, 0)
  | .good => (⟨"Domain Reputation", .secure, "Good domain reputation"⟩, 0)
  | .fair => (⟨"Domain Reputation", .warning, "Fair domain reputation - proceed with caution"⟩, 15)
  | _ => (⟨"Domain Reputation", .danger, "Poor domain reputation - high risk"⟩, 35)

/-- Remainders of `l` after consuming between 1 and `n` leading decimal
digits. -/
def eatDigits : Nat → List Char → List (List Char)
  | 0, _ => []
  | n + 1, l =>
      match l with
      | [] => []
      | c :: rest => if c.isDigit then rest :: eatDigits n rest else []

/-- Remainder after consuming a literal `.`. -/
def expectDot : List Char → List (List Char)
  | c :: rest => if c = '.' then [rest] else []
  | [] => []

/-- Does `/[0-9]{1,3}\.[0-9]{1,3}\.[0-9]{1,3}\.[0-9]{1,3}/` match starting
at this position?  Existential over the backtracking choices. -/
def ip4At (l : List Char) : Bool :=
  (eatDigits 3 l).any fun r1 =>
    (expectDot r1).any fun r2 =>
      (eatDigits 3 r2).any fun r3 =>
        (expectDot r3).any fun r4 =>
          (eatDigits 3 r4).any fun r5 =>
            (expectDot r5).any fun r6 =>
              !(eatDigits 3 r6).isEmpty

/-- `RegExp.prototype.test` of the unanchored IPv4 pattern: a match may
start at any position of the hostname. -/
def ipPatternMatch (hostname : String) : Bool :=
  hostname.data.tails.any ip4At

/-- The `urlRisk` accumulation of the URL structure analysis, in source
order: IP pattern +20, more than 3 hyphens +10, more than 3 digits +10. -/
def urlRisk (hostname : String) : Int :=
  let r : Int := 0
  let r := if ipPatternMatch hostname then r + 20 else r
  let r := if 3 < hyphenCount hostname then r + 10 else r
  let r := if 3 < digitCount hostname then r + 10 else r
  r

/-- The URL structure check: one finding, danger above 15, warning for a
positive subtotal up to 15, secure at 0; the subtotal is added to the
aggregate risk (nothing is added in the secure branch). -/
def urlCheck (hostname : String) : Finding × Int :=
  let r := urlRisk hostname
  if 0 < r then
    (⟨"URL Structure", if 15 < r then .danger else .warning,
      "URL structure contains suspicious patterns"⟩, r)
  else
    (⟨"URL Structure", .secure, "URL structure appears normal"⟩, 0)

/-- `performSecurityChecks(url)`: fetch domain data, run the four checks
in source order (SSL, protocol, reputation, URL structure), collect the
findings and clamp the summed risk with `Math.min(totalRisk, 100)`.
`hostname` and `isHttps` stand for `new URL(url).hostname` and
`url.startsWith('https://')`. -/
def performSecurityChecks (hostname : String) (isHttps : Bool) (ct : CtResult) (now : Int) :
    CheckResult :=
  let dd := fetchRealDomainData hostname isHttps ct now
  let c1 := sslCheck dd.ssl
  let c2 := protocolCheck isHttps
  let c3 := reputationCheck dd.reputation
  let c4 := urlCheck hostname
  { vulnerabilities := [c1.1, c2.1, c3.1, c4.1]
    totalRisk := min (c1.2 + c2.2 + c3.2 + c4.2) 100
    domainData := dd }

/-- The verdict bands of `analyzeWebsite`:
`risk <= 30 → safe`, `risk <= 70 → warning`, otherwise `danger`. -/
def classifyRisk (risk : Int) : Status :=
  if risk ≤ 30 then .safe
  else if risk ≤ 70 then .warning
  else .danger

/-- JavaScript `String.prototype.trim`: strip whitespace from both ends. -/
def jsTrim (s : String) : String :=
  String.mk (((s.data.dropWhile Char.isWhitespace).reverse.dropWhile Char.isWhitespace).reverse)

/-- JavaScript `String.prototype.startsWith`. -/
def jsStartsWith (s pre : String) : Bool :=
  pre.data.isPrefixOf s.data

/-- The scheme normalization of `analyzeWebsite`: trim, then prepend
`https://` when neither scheme prefix is present. -/
def normalizeUrl (url : String) : String :=
  let u := jsTrim url
  if jsStartsWith u "http://" ∨ jsStartsWith u "https://" then u
  else "https://" ++ u

/-! ## Helper lemmas -/

theorem sslCheck_risk_bounds (s : Option SslInfo) :
    0 ≤ (sslCheck s).2 ∧ (sslCheck s).2 ≤ 40 := by
  unfold sslCheck
  repeat' split
  all_goals simp

theorem protocolCheck_risk_bounds (b : Bool) :
    0 ≤ (protocolCheck b).2 ∧ (protocolCheck b).2 ≤ 30 := by
  unfold protocolCheck
  split
  all_goals simp

theorem reputationCheck_risk_bounds (r : Reputation) :
    0 ≤ (reputationCheck r).2 ∧ (reputationCheck r).2 ≤ 35 := by
  unfold reputationCheck
  split
  all_goals simp

theorem urlRisk_nonneg (hostname : String) : 0 ≤ urlRisk hostname := by
  unfold urlRisk
  dsimp only
  repeat' split
  all_goals omega

theorem urlRisk_le (hostname : String) : urlRisk hostname ≤ 40 := by
  unfold urlRisk
  dsimp only
  repeat' split
  all_goals omega

theorem urlCheck_risk_eq (hostname : String) : (urlCheck hostname).2 = urlRisk hostname := by
  unfold urlCheck
  dsimp only
  split
  · rfl
  · have := urlRisk_nonneg hostname
    omega

theorem sslCheck_type (s : Option SslInfo) : (sslCheck s).1.type = "SSL Certificate" := by
  unfold sslCheck
  repeat' split
  all_goals rfl

theorem protocolCheck_type (b : Bool) : (protocolCheck b).1.type = "HTTPS Protocol" := by
  unfold protocolCheck
  split
  all_goals rfl

theorem reputationCheck_type (r : Reputation) :
    (reputationCheck r).1.type = "Domain Reputation" := by
  unfold reputationCheck
  split
  all_goals rfl

theorem urlCheck_type (hostname : String) : (urlCheck hostname).1.type = "URL Structure" := by
  unfold urlCheck
  dsimp only
  split
  all_goals rfl

theorem performSecurityChecks_totalRisk (hostname : String) (isHttps : Bool) (ct : CtResult)
    (now : Int) :
    (performSecurityChecks hostname isHttps ct now).totalRisk =
      min ((sslCheck (fetchRealDomainData hostname isHttps ct now).ssl).2
        + (protocolCheck isHttps).2
        + (reputationCheck (fetchRealDomainData hostname isHttps ct now).reputation).2
        + (urlCheck hostname).2) 100 := rfl

/-! ## Claim theorems -/

/-- C1: for every analysis the engine completes, `totalRisk` lies in
`[0, 100]`: the per-check contributions are summed and clamped with
`Math.min(·, 100)` and are individually nonnegative; an input whose raw
contributions sum past 100 (the scenario-2 hostname over plain HTTP,
raw sum 120) saturates at exactly 100. -/
theorem totalRisk_bounds :
    (∀ (hostname : String) (isHttps : Bool) (ct : CtResult) (now : Int),
        0 ≤ (performSecurityChecks hostname isHttps ct now).totalRisk ∧
        (performSecurityChecks hostname isHttps ct now).totalRisk ≤ 100) ∧
    (performSecurityChecks "192.168.1.1-test-1-2-3-4.tk" false
        (Except.ok (some [])) 0).totalRisk = 100 := by
  constructor
  · intro hostname isHttps ct now
    rw [performSecurityChecks_totalRisk]
    have h1 := sslCheck_risk_bounds (fetchRealDomainData hostname isHttps ct now).ssl
    have h2 := protocolCheck_risk_bounds isHttps
    have h3 := reputationCheck_risk_bounds (fetchRealDomainData hostname isHttps ct now).reputation
    have h4 := urlCheck_risk_eq hostname
    have h5 := urlRisk_nonneg hostname
    have h6 := urlRisk_le hostname
    omega
  · decide

/-- C2: the verdict classifier is the total three-way step function
`risk ≤ 30 → safe`, `30 < risk ≤ 70 → warning`, `70 < risk → danger`;
in particular 30 is safe, 31 and 70 are warning, 71 is danger. -/
theorem classifyRisk_bands :
    (∀ risk : Int,
        (risk ≤ 30 → classifyRisk risk = .safe) ∧
        (30 < risk → risk ≤ 70 → classifyRisk risk = .warning) ∧
        (70 < risk → classifyRisk risk = .danger)) ∧
    classifyRisk 30 = .safe ∧ classifyRisk 31 = .warning ∧
    classifyRisk 70 = .warning ∧ classifyRisk 71 = .danger := by
  refine ⟨fun risk => ⟨fun h => ?_, fun h1 h2 => ?_, fun h => ?_⟩, by decide, by decide,
    by decide, by decide⟩
  · unfold classifyRisk
    rw [if_pos h]
  · unfold classifyRisk
    rw [if_neg (by omega), if_pos h2]
  · unfold classifyRisk
    rw [if_neg (by omega), if_neg (by omega)]

/-- Witness for C2: the band implications applied at 20, 50 and 80. -/
theorem classifyRisk_bands_witness :
    classifyRisk 20 = .safe ∧ classifyRisk 50 = .warning ∧ classifyRisk 80 = .danger :=
  ⟨(classifyRisk_bands.1 20).1 (by decide),
   (classifyRisk_bands.1 50).2.1 (by decide) (by decide),
   (classifyRisk_bands.1 80).2.2 (by decide)⟩

/-- C4: when the certificate lookup throws (`.error`), returns a
non-array body (`.ok none`), or yields no record with a parseable date,
and the URL scheme is HTTPS, the resolver emits the charitable fallback
signal (`valid`, expiry/days/issuer unknown) and the aggregator
classifies it as a secure finding with 0 risk; the failure is absorbed
rather than propagated (both the catch branch and the in-band fallback
land on the same signal). -/
theorem charitable_fallback (hostname : String) (ct : CtResult) (now : Int)
    (hno : ct = Except.error () ∨ ct = Except.ok none ∨
      ∃ l, ct = Except.ok (some l) ∧ resolveSsl l now = none) :
    (fetchRealDomainData hostname true ct now).ssl = some fallbackSsl ∧
    sslCheck ((fetchRealDomainData hostname true ct now).ssl) =
      (⟨"SSL Certificate", Severity.secure, "SSL certificate detected (expiry unknown)"⟩, 0) := by
  rcases hno with h | h | ⟨l, h, hres⟩
  · subst h
    exact ⟨rfl, rfl⟩
  · subst h
    exact ⟨rfl, rfl⟩
  · subst h
    have hssl : (fetchRealDomainData hostname true (Except.ok (some l)) now).ssl =
        some fallbackSsl := by
      rw [show (fetchRealDomainData hostname true (Except.ok (some l)) now).ssl =
        (match resolveSsl l now with
         | none => if true then some fallbackSsl else none
         | some s => some s) from rfl, hres]
      rfl
    exact ⟨hssl, by rw [hssl]; rfl⟩

/-- Witness for C4: the fallback applied to a failed fetch for
`example.com`. -/
theorem charitable_fallback_witness :
    (fetchRealDomainData "example.com" true (Except.error ()) 0).ssl = some fallbackSsl ∧
    sslCheck ((fetchRealDomainData "example.com" true (Except.error ()) 0).ssl) =
      (⟨"SSL Certificate", Severity.secure, "SSL certificate detected (expiry unknown)"⟩, 0) :=
  charitable_fallback "example.com" (Except.error ()) 0 (Or.inl rfl)

theorem reputation_allowlist_score (hostname : String) (age : Option Int)
    (hmem : hostname ∈ popularDomainsRep) :
    calculateDomainReputation hostname age = .excellent := by
  unfold calculateDomainReputation
  dsimp only
  rw [if_pos hmem]
  decide

/-- C5: `calculateDomainReputation` is a pure function of
`(hostname, ageYears)` — in particular its output does not vary across
repeated identical calls — and every hostname in the fixed allow-list
scores a forced 95, hence label `Excellent` (threshold 80), for every
age input. -/
theorem reputation_allowlist_excellent (hostname : String) (age1 age2 : Option Int)
    (hmem : hostname ∈ popularDomainsRep) :
    calculateDomainReputation hostname age1 = .excellent ∧
    calculateDomainReputation hostname age1 = calculateDomainReputation hostname age2 := by
  have h1 := reputation_allowlist_score hostname age1 hmem
  have h2 := reputation_allowlist_score hostname age2 hmem
  rw [h1, h2]
  exact ⟨rfl, rfl⟩

/-- Witness for C5: `google.com` is Excellent both at age 0 (which alone
would score 50 - 10 + 10 = 50, Fair) and at age 7. -/
theorem reputation_allowlist_excellent_witness :
    calculateDomainReputation "google.com" (some 0) = .excellent ∧
    calculateDomainReputation "google.com" (some 0) =
      calculateDomainReputation "google.com" (some 7) :=
  reputation_allowlist_excellent "google.com" (some 0) (some 7) (by decide)

/-- C7 (code bug): when the domain-data fetch fails entirely, the catch
branch stores the string `'Unknown'` in the reputation field, and the
aggregator's reputation check matches it with the final `else` branch:
the absent data is classified as a danger finding with the full
Poor-reputation contribution of 35, contradicting the spec's rule that
unknown data is never a full-severity negative finding. -/
theorem unknown_reputation_full_danger :
    (fetchRealDomainData "example.com" true (Except.error ()) 0).reputation =
      Reputation.unknown ∧
    reputationCheck Reputation.unknown =
      (⟨"Domain Reputation", Severity.danger, "Poor domain reputation - high risk"⟩, 35) ∧
    (performSecurityChecks "example.com" true (Except.error ()) 0).vulnerabilities.get? 2 =
      some ⟨"Domain Reputation", Severity.danger, "Poor domain reputation - high risk"⟩ := by
  refine ⟨rfl, rfl, rfl⟩

/-- C8 counterexample: on `192.168.1.1-test-1-2-3-4.tk` the unanchored
IPv4 regex `.test` DOES match (the substring `192.168.1.1`), so the URL
structure subtotal is 20 + 10 + 10 = 40, not the claimed 20. -/
theorem scenario2_url_counterexample :
    ipPatternMatch "192.168.1.1-test-1-2-3-4.tk" = true ∧
    urlRisk "192.168.1.1-test-1-2-3-4.tk" = 40 := by
  exact ⟨by decide, by decide⟩

/-- C8 (amended): for `http://192.168.1.1-test-1-2-3-4.tk` the protocol
check is danger (+30); the URL structure check fires all three rules
(the unanchored IP pattern matches the `192.168.1.1` substring, 5
hyphens > 3, 12 digits > 3) and contributes +40 with severity danger;
the reputation finding is danger (+35) whatever the certificate lookup
returned; the clamped total is exactly 100 and the final status is
danger. -/
theorem scenario2_amended (ct : CtResult) (now : Int) :
    urlCheck "192.168.1.1-test-1-2-3-4.tk" =
      (⟨"URL Structure", Severity.danger, "URL structure contains suspicious patterns"⟩, 40) ∧
    protocolCheck false =
      (⟨"HTTPS Protocol", Severity.danger,
        "Insecure HTTP connection - data transmitted in plain text"⟩, 30) ∧
    (reputationCheck
        (fetchRealDomainData "192.168.1.1-test-1-2-3-4.tk" false ct now).reputation).2 = 35 ∧
    (reputationCheck
        (fetchRealDomainData "192.168.1.1-test-1-2-3-4.tk" false ct now).reputation).1.status =
      Severity.danger ∧
    (performSecurityChecks "192.168.1.1-test-1-2-3-4.tk" false ct now).totalRisk = 100 ∧
    classifyRisk (performSecurityChecks "192.168.1.1-test-1-2-3-4.tk" false ct now).totalRisk =
      Status.danger := by
  have hrep : (fetchRealDomainData "192.168.1.1-test-1-2-3-4.tk" false ct now).reputation =
      Reputation.poor ∨
      (fetchRealDomainData "192.168.1.1-test-1-2-3-4.tk" false ct now).reputation =
      Reputation.unknown := by
    rcases ct with e | body
    · exact Or.inr rfl
    · left
      show calculateDomainReputation "192.168.1.1-test-1-2-3-4.tk"
        (some (estimateDomainAge "192.168.1.1-test-1-2-3-4.tk")) = Reputation.poor
      decide
  have hrep35 : (reputationCheck
      (fetchRealDomainData "192.168.1.1-test-1-2-3-4.tk" false ct now).reputation).2 = 35 := by
    rcases hrep with h | h <;> rw [h] <;> rfl
  have hrepStatus : (reputationCheck
      (fetchRealDomainData "192.168.1.1-test-1-2-3-4.tk" false ct now).reputation).1.status =
      Severity.danger := by
    rcases hrep with h | h <;> rw [h] <;> rfl
  have hssl := sslCheck_risk_bounds (fetchRealDomainData "192.168.1.1-test-1-2-3-4.tk"
    false ct now).ssl
  have hurl : (urlCheck "192.168.1.1-test-1-2-3-4.tk").2 = 40 := by decide
  have htot : (performSecurityChecks "192.168.1.1-test-1-2-3-4.tk" false ct now).totalRisk =
      100 := by
    rw [performSecurityChecks_totalRisk]
    rw [hrep35, hurl]
    have hpr : (protocolCheck false).2 = 30 := by decide
    rw [hpr]
    omega
  refine ⟨by decide, by decide, hrep35, hrepStatus, htot, ?_⟩
  rw [htot]
  decide

/-- C9 counterexample: the age estimator gives `example.com` (TLD `com`)
a concrete 5-year age, so the reputation score receives the +20 age
bonus on top of the +10 TLD bonus (score 80, label `Excellent`) — not
the claimed "no age adjustment, score 60, label `Good`". -/
theorem scenario1_reputation_counterexample :
    estimateDomainAge "example.com" = 5 ∧
    (fetchRealDomainData "example.com" true (Except.ok (some [])) 0).reputation =
      Reputation.excellent ∧
    (fetchRealDomainData "example.com" true (Except.ok (some [])) 0).reputation ≠
      Reputation.good := by
  exact ⟨by decide, by decide, by decide⟩

/-- C9 (amended): `example.com` is normalized to `https://example.com`;
with no certificate record found the fallback signal is valid with
unknown expiry (secure, 0), the protocol check is secure (0), the
reputation check is secure with 0 risk — via estimated age 5 (+20) plus
the TLD bonus (+10), score 80, label `Excellent` — the URL structure
check is secure (0), and the total risk is 0 with final status safe. -/
theorem scenario1_amended :
    normalizeUrl "example.com" = "https://example.com" ∧
    jsStartsWith (normalizeUrl "example.com") "https://" = true ∧
    (performSecurityChecks "example.com" true (Except.ok (some [])) 0).domainData.ssl =
      some fallbackSsl ∧
    (performSecurityChecks "example.com" true (Except.ok (some [])) 0).vulnerabilities =
      [⟨"SSL Certificate", Severity.secure, "SSL certificate detected (expiry unknown)"⟩,
       ⟨"HTTPS Protocol", Severity.secure, "Secure HTTPS connection"⟩,
       ⟨"Domain Reputation", Severity.secure, "Excellent domain reputation"⟩,
       ⟨"URL Structure", Severity.secure, "URL structure appears normal"⟩] ∧
    (performSecurityChecks "example.com" true (Except.ok (some [])) 0).totalRisk = 0 ∧
    classifyRisk (performSecurityChecks "example.com" true (Except.ok (some [])) 0).totalRisk =
      Status.safe := by
  refine ⟨by decide, by decide, by decide, by decide, by decide, by decide⟩

/-- C10: the built-in age estimator is total and concrete — 20 for the
popular table, 5 for `com`/`org`/`net`, 2 otherwise — it never yields
the unknown sentinel; consequently the scorer's no-adjustment branch is
dead when it is fed from the estimator: every score gets +20 or +10
(never 0, and never the −10 young-domain penalty, since 2 ≥ 2), and the
non-catch path of `fetchRealDomainData` always stores a concrete age and
scores with it. -/
theorem estimateDomainAge_never_unknown (hostname : String) :
    (hostname ∈ popularDomainsAge → estimateDomainAge hostname = 20) ∧
    (hostname ∉ popularDomainsAge →
      (tldOf hostname = "com" ∨ tldOf hostname = "org" ∨ tldOf hostname = "net") →
      estimateDomainAge hostname = 5) ∧
    (hostname ∉ popularDomainsAge →
      ¬(tldOf hostname = "com" ∨ tldOf hostname = "org" ∨ tldOf hostname = "net") →
      estimateDomainAge hostname = 2) ∧
    (∀ score : Int,
      ageAdjusted score (some (estimateDomainAge hostname)) = score + 20 ∨
      ageAdjusted score (some (estimateDomainAge hostname)) = score + 10) ∧
    (∀ (isHttps : Bool) (body : Option (List RawCert)) (now : Int),
      (fetchRealDomainData hostname isHttps (Except.ok body) now).domainAge =
        some (estimateDomainAge hostname) ∧
      (fetchRealDomainData hostname isHttps (Except.ok body) now).reputation =
        calculateDomainReputation hostname (some (estimateDomainAge hostname))) := by
  have hcases : estimateDomainAge hostname = 20 ∨ estimateDomainAge hostname = 5 ∨
      estimateDomainAge hostname = 2 := by
    unfold estimateDomainAge
    split
    · exact Or.inl rfl
    · split
      · exact Or.inr (Or.inl rfl)
      · exact Or.inr (Or.inr rfl)
  refine ⟨fun h => ?_, fun h1 h2 => ?_, fun h1 h2 => ?_, fun score => ?_,
    fun isHttps body now => ⟨rfl, rfl⟩⟩
  · unfold estimateDomainAge
    rw [if_pos h]
  · unfold estimateDomainAge
    rw [if_neg h1, if_pos h2]
  · unfold estimateDomainAge
    rw [if_neg h1, if_neg h2]
  · rcases hcases with h | h | h <;> rw [h] <;> unfold ageAdjusted <;>
      simp only [] <;> omega

/-- Witness for C10: `example.com` is not in the popular table and has
TLD `com`, so its estimated age is 5 and the age delta is +20 on the
base score 50. -/
theorem estimateDomainAge_never_unknown_witness :
    estimateDomainAge "example.com" = 5 ∧
    (ageAdjusted 50 (some (estimateDomainAge "example.com")) = 50 + 20 ∨
     ageAdjusted 50 (some (estimateDomainAge "example.com")) = 50 + 10) :=
  ⟨(estimateDomainAge_never_unknown "example.com").2.1 (by decide) (by decide),
   (estimateDomainAge_never_unknown "example.com").2.2.2.1 50⟩

/-- C6: the URL structure heuristic is additive and order-independent —
the sequential `urlRisk` accumulation equals the sum of the three
independent contributions (IP pattern +20, hyphens > 3 +10,
digits > 3 +10) — the check emits exactly one URL Structure finding per
run, its severity is secure exactly at subtotal 0, danger above 15 and
warning otherwise, and the subtotal is the amount added to the
aggregate risk. -/
theorem urlStructure_additive (hostname : String) (isHttps : Bool) (ct : CtResult) (now : Int) :
    urlRisk hostname =
        (if ipPatternMatch hostname then (20 : Int) else 0) +
        (if 3 < hyphenCount hostname then (10 : Int) else 0) +
        (if 3 < digitCount hostname then (10 : Int) else 0) ∧
    (urlCheck hostname).2 = urlRisk hostname ∧
    (urlCheck hostname).1.status =
        (if urlRisk hostname = 0 then Severity.secure
         else if 15 < urlRisk hostname then Severity.danger else Severity.warning) ∧
    (performSecurityChecks hostname isHttps ct now).totalRisk =
        min ((sslCheck (fetchRealDomainData hostname isHttps ct now).ssl).2
          + (protocolCheck isHttps).2
          + (reputationCheck (fetchRealDomainData hostname isHttps ct now).reputation).2
          + (urlCheck hostname).2) 100 ∧
    ((performSecurityChecks hostname isHttps ct now).vulnerabilities.filter
        (fun f => f.type = "URL Structure")).length = 1 := by
  refine ⟨?_, urlCheck_risk_eq hostname, ?_, performSecurityChecks_totalRisk _ _ _ _, ?_⟩
  · unfold urlRisk
    dsimp only
    by_cases h1 : ipPatternMatch hostname = true <;>
      by_cases h2 : 3 < hyphenCount hostname <;>
      by_cases h3 : 3 < digitCount hostname <;>
      simp [h1, h2, h3]
  · have hnn := urlRisk_nonneg hostname
    unfold urlCheck
    dsimp only
    by_cases h0 : urlRisk hostname = 0
    · rw [if_neg (by omega), if_pos h0]
    · rw [if_pos (by omega), if_neg h0]
  · have t1 := sslCheck_type (fetchRealDomainData hostname isHttps ct now).ssl
    have t2 := protocolCheck_type isHttps
    have t3 := reputationCheck_type (fetchRealDomainData hostname isHttps ct now).reputation
    have t4 := urlCheck_type hostname
    show (List.filter _ [_, _, _, _]).length = 1
    rw [List.filter_cons, List.filter_cons, List.filter_cons, List.filter_cons]
    rw [t1, t2, t3, t4]
    simp

theorem foldl_pickLater_mem (h : CertRec) (t : List CertRec) :
    t.foldl pickLater h ∈ h :: t := by
  induction t generalizing h with
  | nil => exact List.mem_cons_self _ _
  | cons x t ih =>
      rw [List.foldl_cons]
      have hpick : pickLater h x = h ∨ pickLater h x = x := by
        unfold pickLater
        split
        · exact Or.inr rfl
        · exact Or.inl rfl
      rcases List.mem_cons.mp (ih (pickLater h x)) with he | ht
      · rcases hpick with hp | hp
        · rw [he, hp]
          exact List.mem_cons_self _ _
        · rw [he, hp]
          exact List.mem_cons_of_mem _ (List.mem_cons_self _ _)
      · exact List.mem_cons_of_mem _ (List.mem_cons_of_mem _ ht)

theorem foldl_pickLater_ub (h : CertRec) (t : List CertRec) :
    ∀ c ∈ h :: t, c.notAfter ≤ (t.foldl pickLater h).notAfter := by
  induction t generalizing h with
  | nil =>
      intro c hc
      rcases List.mem_cons.mp hc with he | ht
      · rw [he, List.foldl_nil]
      · exact absurd ht (List.not_mem_nil c)
  | cons x t ih =>
      intro c hc
      rw [List.foldl_cons]
      have h1 : h.notAfter ≤ (pickLater h x).notAfter := by
        unfold pickLater
        split
        all_goals omega
      have h2 : x.notAfter ≤ (pickLater h x).notAfter := by
        unfold pickLater
        split
        all_goals omega
      have hhead := ih (pickLater h x) (pickLater h x) (List.mem_cons_self _ _)
      rcases List.mem_cons.mp hc with he | ht
      · rw [he]
        exact le_trans h1 hhead
      · rcases List.mem_cons.mp ht with he2 | ht2
        · rw [he2]
          exact le_trans h2 hhead
        · exact ih (pickLater h x) c (List.mem_cons_of_mem _ ht2)

theorem latestRecord_mem {l : List CertRec} {r : CertRec} (hr : latestRecord l = some r) :
    r ∈ l := by
  cases l with
  | nil => simp [latestRecord] at hr
  | cons h t =>
      have heq : r = t.foldl pickLater h := by
        simp [latestRecord] at hr
        exact hr.symm
      rw [heq]
      exact foldl_pickLater_mem h t

theorem latestRecord_ub {l : List CertRec} {r : CertRec} (hr : latestRecord l = some r) :
    ∀ c ∈ l, c.notAfter ≤ r.notAfter := by
  cases l with
  | nil => simp [latestRecord] at hr
  | cons h t =>
      have heq : r = t.foldl pickLater h := by
        simp [latestRecord] at hr
        exact hr.symm
      rw [heq]
      exact foldl_pickLater_ub h t

theorem latestRecord_eq_none_iff (l : List CertRec) : latestRecord l = none ↔ l = [] := by
  cases l with
  | nil => simp [latestRecord]
  | cons h t => simp [latestRecord]

theorem latestRecord_perm_notAfter {l l' : List CertRec} (hp : List.Perm l l')
    {r r' : CertRec} (hr : latestRecord l = some r) (hr' : latestRecord l' = some r') :
    r.notAfter = r'.notAfter :=
  le_antisymm
    (latestRecord_ub hr' r (hp.subset (latestRecord_mem hr)))
    (latestRecord_ub hr r' (hp.symm.subset (latestRecord_mem hr')))

theorem latestRecord_perm_nodup {l l' : List CertRec} (hp : List.Perm l l')
    (hnd : (l.map CertRec.notAfter).Nodup)
    {r r' : CertRec} (hr : latestRecord l = some r) (hr' : latestRecord l' = some r') :
    r = r' :=
  List.inj_on_of_nodup_map hnd (latestRecord_mem hr)
    (hp.symm.subset (latestRecord_mem hr'))
    (latestRecord_perm_notAfter hp hr hr')

theorem resolveSsl_eq_of_latest {l : List RawCert} {now : Int} {r : CertRec}
    (hl : latestRecord (parseCerts l) = some r) :
    resolveSsl l now =
      some { valid := decide (0 < ceilDiv (r.notAfter - now) 86400000)
             expiry := some r.notAfter
             daysUntilExpiry := some (ceilDiv (r.notAfter - now) 86400000)
             issuer := some r.issuer } := by
  unfold resolveSsl
  rw [hl]

theorem resolveSsl_eq_none_of_latest {l : List RawCert} {now : Int}
    (hl : latestRecord (parseCerts l) = none) :
    resolveSsl l now = none := by
  unfold resolveSsl
  rw [hl]

/-- C3 counterexample: two records share the not-after timestamp 100 but
carry different issuers; the two orderings are permutations of one
another, yet the resolver's selected record (hence the emitted
`sslInfo`, through its issuer) differs — the stable descending sort
keeps the first-in-input maximal record. -/
theorem certResolver_tie_counterexample :
    List.Perm
      [({ notAfter := some 100, issuerName := some "CA-A" } : RawCert),
       { notAfter := some 100, issuerName := some "CA-B" }]
      [({ notAfter := some 100, issuerName := some "CA-B" } : RawCert),
       { notAfter := some 100, issuerName := some "CA-A" }] ∧
    resolveSsl
        [({ notAfter := some 100, issuerName := some "CA-A" } : RawCert),
         { notAfter := some 100, issuerName := some "CA-B" }] 0 ≠
      resolveSsl
        [({ notAfter := some 100, issuerName := some "CA-B" } : RawCert),
         { notAfter := some 100, issuerName := some "CA-A" }] 0 := by
  constructor
  · exact List.Perm.swap _ _ _
  · decide

/-- C3 (amended): for every list of raw certificate records, the
resolver selects a parsed record whose not-after timestamp is maximal
and derives `valid`, `expiry` and `daysUntilExpiry` from it; those
derived values are invariant under permutation of the input, and when
the parsed not-after timestamps are pairwise distinct the entire
selected record (issuer included) is permutation-invariant.  (With tied
timestamps only the issuer may depend on input order, as the
counterexample shows.) -/
theorem certResolver_latest_perm (l l' : List RawCert) (now : Int)
    (hp : List.Perm l l') :
    (∀ s, resolveSsl l now = some s →
      ∃ c, c ∈ parseCerts l ∧ s.expiry = some c.notAfter ∧ s.issuer = some c.issuer ∧
        s.daysUntilExpiry = some (ceilDiv (c.notAfter - now) 86400000) ∧
        s.valid = decide (0 < ceilDiv (c.notAfter - now) 86400000) ∧
        ∀ c' ∈ parseCerts l, c'.notAfter ≤ c.notAfter) ∧
    Option.map (fun s => (s.valid, s.expiry, s.daysUntilExpiry)) (resolveSsl l now) =
      Option.map (fun s => (s.valid, s.expiry, s.daysUntilExpiry)) (resolveSsl l' now) ∧
    (((parseCerts l).map CertRec.notAfter).Nodup → resolveSsl l now = resolveSsl l' now) := by
  have hpp : List.Perm (parseCerts l) (parseCerts l') := by
    unfold parseCerts
    exact List.Perm.filterMap _ hp
  refine ⟨?_, ?_, ?_⟩
  · intro s hs
    rcases hl : latestRecord (parseCerts l) with _ | r
    · rw [resolveSsl_eq_none_of_latest hl] at hs
      cases hs
    · rw [resolveSsl_eq_of_latest hl] at hs
      injection hs with hs
      refine ⟨r, latestRecord_mem hl, ?_, ?_, ?_, ?_, latestRecord_ub hl⟩
      all_goals rw [← hs]
  · rcases hl : latestRecord (parseCerts l) with _ | r
    · have hnil : parseCerts l = [] := (latestRecord_eq_none_iff _).mp hl
      have hnil' : parseCerts l' = [] := (hnil ▸ hpp).symm.eq_nil
      rw [resolveSsl_eq_none_of_latest hl,
        resolveSsl_eq_none_of_latest ((latestRecord_eq_none_iff _).mpr hnil')]
    · rcases hl' : latestRecord (parseCerts l') with _ | r'
      · have hnil' : parseCerts l' = [] := (latestRecord_eq_none_iff _).mp hl'
        have hnil : parseCerts l = [] := (hnil' ▸ hpp.symm).symm.eq_nil
        rw [(latestRecord_eq_none_iff _).mpr hnil] at hl
        cases hl
      · have hEq := latestRecord_perm_notAfter hpp hl hl'
        rw [resolveSsl_eq_of_latest hl, resolveSsl_eq_of_latest hl']
        rw [hEq]
        simp
  · intro hnd
    rcases hl : latestRecord (parseCerts l) with _ | r
    · have hnil : parseCerts l = [] := (latestRecord_eq_none_iff _).mp hl
      have hnil' : parseCerts l' = [] := (hnil ▸ hpp).symm.eq_nil
      rw [resolveSsl_eq_none_of_latest hl,
        resolveSsl_eq_none_of_latest ((latestRecord_eq_none_iff _).mpr hnil')]
    · rcases hl' : latestRecord (parseCerts l') with _ | r'
      · have hnil' : parseCerts l' = [] := (latestRecord_eq_none_iff _).mp hl'
        have hnil : parseCerts l = [] := (hnil' ▸ hpp.symm).symm.eq_nil
        rw [(latestRecord_eq_none_iff _).mpr hnil] at hl
        cases hl
      · have hrr := latestRecord_perm_nodup hpp hnd hl hl'
        rw [resolveSsl_eq_of_latest hl, resolveSsl_eq_of_latest hl', hrr]

/-- Witness for C3 (amended): two records with distinct timestamps in the
two orders resolve to the same `sslInfo`. -/
theorem certResolver_latest_perm_witness :
    resolveSsl
        [({ notAfter := some 100, issuerName := some "CA-A" } : RawCert),
         { notAfter := some 200, issuerName := some "CA-B" }] 0 =
      resolveSsl
        [({ notAfter := some 200, issuerName := some "CA-B" } : RawCert),
         { notAfter := some 100, issuerName := some "CA-A" }] 0 :=
  (certResolver_latest_perm _ _ 0 (List.Perm.swap _ _ _)).2.2 (by decide)

end TrustScope
